import Mathlib

/-!
# GitHub automation data models — verification development

A shallow embedding of `apps/backend/runners/github/models.py`: persisted data
records for a GitHub automation workflow (PR review findings/results, issue
triage results, auto-fix task state, runner configuration), their JSON
(de)serialization, index upsert protocol and settings persistence.

Modelling conventions:
* JSON values are the inductive `Json`; a Python `dict` is an association
  list `JsonObj` (keys unique in every dict the program builds).
* Python exceptions during decoding become `Except DecodeError`;
  `KeyError` on a required key is `DecodeError.missingField`, a `ValueError`
  from a string-backed `Enum` constructor is `DecodeError.invalidEnumValue`
  (carrying the enum class name and the offending value, as the Python
  message does).  Reading a present-but-ill-typed value where Python performs
  no check is modelled as `DecodeError.typeMismatch`; theorems quantify over
  the well-typed region where the model and Python agree.
* Python `float` fields carry no arithmetic in this module, so they are
  modelled by `Rat`; `int` by `Int`.
* `datetime.now().isoformat()` is modelled by threading an explicit
  `now : String` parameter into every operation that stamps a timestamp.
* The filesystem is `FS := String → Option (Except Unit Json)`: a path maps
  to nothing (no file), `.error ()` (a file whose contents are not valid
  JSON), or the parsed JSON value.
-/

/-- JSON values, as produced by Python's `json` module. -/
inductive Json where
  | null : Json
  | str (s : String) : Json
  | int (n : Int) : Json
  | float (q : Rat) : Json
  | bool (b : Bool) : Json
  | arr (xs : List Json) : Json
  | obj (kvs : List (String × Json)) : Json
  deriving Repr

/-- A Python `dict` with string keys: an association list (keys unique in all
dicts this program constructs). -/
abbrev JsonObj := List (String × Json)

namespace Json

/-- `d.get(k)` / `d[k]` key lookup: first matching key. -/
def find? : JsonObj → String → Option Json
  | [], _ => none
  | (k', v) :: rest, k => if k' = k then some v else find? rest k

/-- `d[k] = v` dict assignment: replace the value at the first occurrence of
`k` in place, or append `(k, v)` at the end (Python insertion order). -/
def setKey : JsonObj → String → Json → JsonObj
  | [], k, v => [(k, v)]
  | (k', v') :: rest, k, v =>
    if k' = k then (k', v) :: rest else (k', v') :: setKey rest k v

/-- `d.pop(k, None)`'s effect on the dict: remove the first occurrence of `k`. -/
def eraseKey : JsonObj → String → JsonObj
  | [], _ => []
  | (k', v') :: rest, k =>
    if k' = k then rest else (k', v') :: eraseKey rest k

end Json

/-- Failures surfaced while decoding a record from a mapping. -/
inductive DecodeError where
  /-- Python `KeyError` on a required key: `data["k"]` with `k` absent. -/
  | missingField (key : String) : DecodeError
  /-- Python `ValueError` from a string-backed `Enum` constructor:
  `EnumClass(v)` with `v` outside the closed vocabulary.  Carries the enum
  class name and the offending value. -/
  | invalidEnumValue (enumName : String) (value : Json) : DecodeError
  /-- A present value whose JSON type does not fit the field.  Python performs
  no such check (the ill-typed value would flow into the record); theorems
  stay inside the well-typed region where this constructor is unreachable. -/
  | typeMismatch (key : String) : DecodeError
  deriving Repr

namespace Json

/-- `data["k"]`: the raw value, `KeyError` (`missingField`) when absent. -/
def getRaw (d : JsonObj) (k : String) : Except DecodeError Json :=
  match find? d k with
  | none => .error (.missingField k)
  | some v => .ok v

/-- `data["k"]` expecting a string. -/
def getStr (d : JsonObj) (k : String) : Except DecodeError String :=
  match find? d k with
  | none => .error (.missingField k)
  | some (.str s) => .ok s
  | some _ => .error (.typeMismatch k)

/-- `data["k"]` expecting an integer. -/
def getInt (d : JsonObj) (k : String) : Except DecodeError Int :=
  match find? d k with
  | none => .error (.missingField k)
  | some (.int n) => .ok n
  | some _ => .error (.typeMismatch k)

/-- `data["k"]` expecting a boolean. -/
def getBool (d : JsonObj) (k : String) : Except DecodeError Bool :=
  match find? d k with
  | none => .error (.missingField k)
  | some (.bool b) => .ok b
  | some _ => .error (.typeMismatch k)

/-- `data["k"]` expecting a float. -/
def getFloat (d : JsonObj) (k : String) : Except DecodeError Rat :=
  match find? d k with
  | none => .error (.missingField k)
  | some (.float q) => .ok q
  | some _ => .error (.typeMismatch k)

/-- `data.get("k")` for an optional string field (`None` when absent or null). -/
def getOptStr (d : JsonObj) (k : String) : Except DecodeError (Option String) :=
  match find? d k with
  | none => .ok none
  | some .null => .ok none
  | some (.str s) => .ok (some s)
  | some _ => .error (.typeMismatch k)

/-- `data.get("k")` for an optional integer field. -/
def getOptInt (d : JsonObj) (k : String) : Except DecodeError (Option Int) :=
  match find? d k with
  | none => .ok none
  | some .null => .ok none
  | some (.int n) => .ok (some n)
  | some _ => .error (.typeMismatch k)

/-- `data.get("k", default)` for a string field with a default. -/
def getStrD (d : JsonObj) (k : String) (dflt : String) :
    Except DecodeError String :=
  match find? d k with
  | none => .ok dflt
  | some (.str s) => .ok s
  | some _ => .error (.typeMismatch k)

/-- `data.get("k", False)`-style boolean with a default. -/
def getBoolD (d : JsonObj) (k : String) (dflt : Bool) :
    Except DecodeError Bool :=
  match find? d k with
  | none => .ok dflt
  | some (.bool b) => .ok b
  | some _ => .error (.typeMismatch k)

/-- Coerce a JSON array element to a string. -/
def asStr : Json → Except DecodeError String
  | .str s => .ok s
  | _ => .error (.typeMismatch "list element")

/-- `data.get("k", dflt)` for a list-of-strings field. -/
def getStrListD (d : JsonObj) (k : String) (dflt : List String := []) :
    Except DecodeError (List String) :=
  match find? d k with
  | none => .ok dflt
  | some (.arr xs) => xs.mapM asStr
  | some _ => .error (.typeMismatch k)

/-- `data.get("k", dflt)` for a float field with a default. -/
def getFloatD (d : JsonObj) (k : String) (dflt : Rat) :
    Except DecodeError Rat :=
  match find? d k with
  | none => .ok dflt
  | some (.float q) => .ok q
  | some _ => .error (.typeMismatch k)

/-- Encode an optional string (`None` → JSON null). -/
def ofOptStr : Option String → Json
  | none => .null
  | some s => .str s

/-- Encode an optional integer (`None` → JSON null). -/
def ofOptInt : Option Int → Json
  | none => .null
  | some n => .int n

/-- Encode a list of strings. -/
def ofStrList (xs : List String) : Json := .arr (xs.map .str)

end Json

/-! ## Enumerated vocabularies (string-backed, closed) -/

/-- Severity levels for PR review findings. -/
inductive ReviewSeverity where
  | critical | high | medium | low
  deriving Repr, DecidableEq

namespace ReviewSeverity

/-- The `.value` of the string-backed enum member. -/
def toStr : ReviewSeverity → String
  | .critical => "critical"
  | .high => "high"
  | .medium => "medium"
  | .low => "low"

/-- `ReviewSeverity(s)` membership test: which member has value `s`, if any. -/
def ofStr : String → Option ReviewSeverity
  | "critical" => some .critical
  | "high" => some .high
  | "medium" => some .medium
  | "low" => some .low
  | _ => none

/-- `ReviewSeverity(v)`: a `ValueError` (`invalidEnumValue`) for any value not
in the closed vocabulary, including non-strings. -/
def decode (v : Json) : Except DecodeError ReviewSeverity :=
  match v with
  | .str s =>
    match ofStr s with
    | some x => .ok x
    | none => .error (.invalidEnumValue "ReviewSeverity" (.str s))
  | _ => .error (.invalidEnumValue "ReviewSeverity" v)

end ReviewSeverity

/-- Categories for PR review findings. -/
inductive ReviewCategory where
  | security | quality | style | test | docs | pattern | performance
  deriving Repr, DecidableEq

namespace ReviewCategory

/-- The `.value` of the string-backed enum member. -/
def toStr : ReviewCategory → String
  | .security => "security"
  | .quality => "quality"
  | .style => "style"
  | .test => "test"
  | .docs => "docs"
  | .pattern => "pattern"
  | .performance => "performance"

/-- Which member has value `s`, if any. -/
def ofStr : String → Option ReviewCategory
  | "security" => some .security
  | "quality" => some .quality
  | "style" => some .style
  | "test" => some .test
  | "docs" => some .docs
  | "pattern" => some .pattern
  | "performance" => some .performance
  | _ => none

/-- `ReviewCategory(v)` with `ValueError` outside the vocabulary. -/
def decode (v : Json) : Except DecodeError ReviewCategory :=
  match v with
  | .str s =>
    match ofStr s with
    | some x => .ok x
    | none => .error (.invalidEnumValue "ReviewCategory" (.str s))
  | _ => .error (.invalidEnumValue "ReviewCategory" v)

end ReviewCategory

/-- Issue triage categories. -/
inductive TriageCategory where
  | bug | feature | documentation | question | duplicate | spam | feature_creep
  deriving Repr, DecidableEq

namespace TriageCategory

/-- The `.value` of the string-backed enum member. -/
def toStr : TriageCategory → String
  | .bug => "bug"
  | .feature => "feature"
  | .documentation => "documentation"
  | .question => "question"
  | .duplicate => "duplicate"
  | .spam => "spam"
  | .feature_creep => "feature_creep"

/-- Which member has value `s`, if any. -/
def ofStr : String → Option TriageCategory
  | "bug" => some .bug
  | "feature" => some .feature
  | "documentation" => some .documentation
  | "question" => some .question
  | "duplicate" => some .duplicate
  | "spam" => some .spam
  | "feature_creep" => some .feature_creep
  | _ => none

/-- `TriageCategory(v)` with `ValueError` outside the vocabulary. -/
def decode (v : Json) : Except DecodeError TriageCategory :=
  match v with
  | .str s =>
    match ofStr s with
    | some x => .ok x
    | none => .error (.invalidEnumValue "TriageCategory" (.str s))
  | _ => .error (.invalidEnumValue "TriageCategory" v)

end TriageCategory

/-- Status for auto-fix operations. -/
inductive AutoFixStatus where
  | pending | analyzing | creating_spec | building | qa_review
  | pr_created | completed | failed
  deriving Repr, DecidableEq

namespace AutoFixStatus

/-- The `.value` of the string-backed enum member. -/
def toStr : AutoFixStatus → String
  | .pending => "pending"
  | .analyzing => "analyzing"
  | .creating_spec => "creating_spec"
  | .building => "building"
  | .qa_review => "qa_review"
  | .pr_created => "pr_created"
  | .completed => "completed"
  | .failed => "failed"

/-- Which member has value `s`, if any. -/
def ofStr : String → Option AutoFixStatus
  | "pending" => some .pending
  | "analyzing" => some .analyzing
  | "creating_spec" => some .creating_spec
  | "building" => some .building
  | "qa_review" => some .qa_review
  | "pr_created" => some .pr_created
  | "completed" => some .completed
  | "failed" => some .failed
  | _ => none

/-- `AutoFixStatus(v)` with `ValueError` outside the vocabulary. -/
def decode (v : Json) : Except DecodeError AutoFixStatus :=
  match v with
  | .str s =>
    match ofStr s with
    | some x => .ok x
    | none => .error (.invalidEnumValue "AutoFixStatus" (.str s))
  | _ => .error (.invalidEnumValue "AutoFixStatus" v)

end AutoFixStatus

/-! ## PRReviewFinding -/

/-- A single finding from a PR review. -/
structure PRReviewFinding where
  id : String
  severity : ReviewSeverity
  category : ReviewCategory
  title : String
  description : String
  file : String
  line : Int
  end_line : Option Int := none
  suggested_fix : Option String := none
  fixable : Bool := false
  deriving Repr, DecidableEq

namespace PRReviewFinding

/-- `PRReviewFinding.to_dict`. -/
def to_dict (f : PRReviewFinding) : JsonObj :=
  [ ("id", .str f.id),
    ("severity", .str f.severity.toStr),
    ("category", .str f.category.toStr),
    ("title", .str f.title),
    ("description", .str f.description),
    ("file", .str f.file),
    ("line", .int f.line),
    ("end_line", Json.ofOptInt f.end_line),
    ("suggested_fix", Json.ofOptStr f.suggested_fix),
    ("fixable", .bool f.fixable) ]

/-- `PRReviewFinding.from_dict`, reading fields in source (keyword-argument)
order so the first failing access determines the raised error. -/
def from_dict (data : JsonObj) : Except DecodeError PRReviewFinding := do
  let id ← Json.getStr data "id"
  let severity ← ReviewSeverity.decode (← Json.getRaw data "severity")
  let category ← ReviewCategory.decode (← Json.getRaw data "category")
  let title ← Json.getStr data "title"
  let description ← Json.getStr data "description"
  let file ← Json.getStr data "file"
  let line ← Json.getInt data "line"
  let end_line ← Json.getOptInt data "end_line"
  let suggested_fix ← Json.getOptStr data "suggested_fix"
  let fixable ← Json.getBoolD data "fixable" false
  return { id, severity, category, title, description, file, line,
           end_line, suggested_fix, fixable }

end PRReviewFinding

/-! ## PRReviewResult -/

/-- Complete result of a PR review.  `reviewed_at` is a timestamp string whose
Python default (`datetime.now().isoformat()`) is supplied by the constructor
caller in this model. -/
structure PRReviewResult where
  pr_number : Int
  repo : String
  success : Bool
  findings : List PRReviewFinding := []
  summary : String := ""
  overall_status : String := "comment"
  review_id : Option Int := none
  reviewed_at : String
  error : Option String := none
  deriving Repr, DecidableEq

namespace PRReviewResult

/-- `PRReviewResult.to_dict`. -/
def to_dict (r : PRReviewResult) : JsonObj :=
  [ ("pr_number", .int r.pr_number),
    ("repo", .str r.repo),
    ("success", .bool r.success),
    ("findings", .arr (r.findings.map fun f => .obj f.to_dict)),
    ("summary", .str r.summary),
    ("overall_status", .str r.overall_status),
    ("review_id", Json.ofOptInt r.review_id),
    ("reviewed_at", .str r.reviewed_at),
    ("error", Json.ofOptStr r.error) ]

/-- Decode one element of the `findings` list (Python indexes into it as a
dict, so a non-object element is outside the well-typed region). -/
def decodeFinding : Json → Except DecodeError PRReviewFinding
  | .obj o => PRReviewFinding.from_dict o
  | _ => .error (.typeMismatch "findings")

/-- `data.get("findings", [])` decoded element-wise. -/
def getFindings (data : JsonObj) : Except DecodeError (List PRReviewFinding) :=
  match Json.find? data "findings" with
  | none => .ok []
  | some (.arr xs) => xs.mapM decodeFinding
  | some _ => .error (.typeMismatch "findings")

/-- `PRReviewResult.from_dict`; `now` models `datetime.now().isoformat()`,
used only when `reviewed_at` is absent from the mapping. -/
def from_dict (now : String) (data : JsonObj) :
    Except DecodeError PRReviewResult := do
  let pr_number ← Json.getInt data "pr_number"
  let repo ← Json.getStr data "repo"
  let success ← Json.getBool data "success"
  let findings ← getFindings data
  let summary ← Json.getStrD data "summary" ""
  let overall_status ← Json.getStrD data "overall_status" "comment"
  let review_id ← Json.getOptInt data "review_id"
  let reviewed_at ← Json.getStrD data "reviewed_at" now
  let error ← Json.getOptStr data "error"
  return { pr_number, repo, success, findings, summary, overall_status,
           review_id, reviewed_at, error }

end PRReviewResult

/-! ## TriageResult -/

/-- Result of triaging a single issue. -/
structure TriageResult where
  issue_number : Int
  repo : String
  category : TriageCategory
  confidence : Rat
  labels_to_add : List String := []
  labels_to_remove : List String := []
  is_duplicate : Bool := false
  duplicate_of : Option Int := none
  is_spam : Bool := false
  is_feature_creep : Bool := false
  suggested_breakdown : List String := []
  priority : String := "medium"
  comment : Option String := none
  triaged_at : String
  deriving Repr, DecidableEq

namespace TriageResult

/-- `TriageResult.to_dict`. -/
def to_dict (t : TriageResult) : JsonObj :=
  [ ("issue_number", .int t.issue_number),
    ("repo", .str t.repo),
    ("category", .str t.category.toStr),
    ("confidence", .float t.confidence),
    ("labels_to_add", Json.ofStrList t.labels_to_add),
    ("labels_to_remove", Json.ofStrList t.labels_to_remove),
    ("is_duplicate", .bool t.is_duplicate),
    ("duplicate_of", Json.ofOptInt t.duplicate_of),
    ("is_spam", .bool t.is_spam),
    ("is_feature_creep", .bool t.is_feature_creep),
    ("suggested_breakdown", Json.ofStrList t.suggested_breakdown),
    ("priority", .str t.priority),
    ("comment", Json.ofOptStr t.comment),
    ("triaged_at", .str t.triaged_at) ]

/-- `TriageResult.from_dict`; `now` is used only when `triaged_at` is absent. -/
def from_dict (now : String) (data : JsonObj) :
    Except DecodeError TriageResult := do
  let issue_number ← Json.getInt data "issue_number"
  let repo ← Json.getStr data "repo"
  let category ← TriageCategory.decode (← Json.getRaw data "category")
  let confidence ← Json.getFloat data "confidence"
  let labels_to_add ← Json.getStrListD data "labels_to_add"
  let labels_to_remove ← Json.getStrListD data "labels_to_remove"
  let is_duplicate ← Json.getBoolD data "is_duplicate" false
  let duplicate_of ← Json.getOptInt data "duplicate_of"
  let is_spam ← Json.getBoolD data "is_spam" false
  let is_feature_creep ← Json.getBoolD data "is_feature_creep" false
  let suggested_breakdown ← Json.getStrListD data "suggested_breakdown"
  let priority ← Json.getStrD data "priority" "medium"
  let comment ← Json.getOptStr data "comment"
  let triaged_at ← Json.getStrD data "triaged_at" now
  return { issue_number, repo, category, confidence, labels_to_add,
           labels_to_remove, is_duplicate, duplicate_of, is_spam,
           is_feature_creep, suggested_breakdown, priority, comment,
           triaged_at }

end TriageResult

/-! ## AutoFixState -/

/-- State tracking for auto-fix operations. -/
structure AutoFixState where
  issue_number : Int
  issue_url : String
  repo : String
  status : AutoFixStatus := .pending
  spec_id : Option String := none
  spec_dir : Option String := none
  pr_number : Option Int := none
  pr_url : Option String := none
  bot_comments : List String := []
  error : Option String := none
  created_at : String
  updated_at : String
  deriving Repr, DecidableEq

namespace AutoFixState

/-- `AutoFixState.to_dict`. -/
def to_dict (a : AutoFixState) : JsonObj :=
  [ ("issue_number", .int a.issue_number),
    ("issue_url", .str a.issue_url),
    ("repo", .str a.repo),
    ("status", .str a.status.toStr),
    ("spec_id", Json.ofOptStr a.spec_id),
    ("spec_dir", Json.ofOptStr a.spec_dir),
    ("pr_number", Json.ofOptInt a.pr_number),
    ("pr_url", Json.ofOptStr a.pr_url),
    ("bot_comments", Json.ofStrList a.bot_comments),
    ("error", Json.ofOptStr a.error),
    ("created_at", .str a.created_at),
    ("updated_at", .str a.updated_at) ]

/-- `AutoFixStatus(data.get("status", "pending"))`: default member when the
key is absent, enum validation otherwise. -/
def decodeStatusD (data : JsonObj) : Except DecodeError AutoFixStatus :=
  match Json.find? data "status" with
  | none => .ok .pending
  | some v => AutoFixStatus.decode v

/-- `AutoFixState.from_dict`; `now` is used only for timestamp keys absent
from the mapping. -/
def from_dict (now : String) (data : JsonObj) :
    Except DecodeError AutoFixState := do
  let issue_number ← Json.getInt data "issue_number"
  let issue_url ← Json.getStr data "issue_url"
  let repo ← Json.getStr data "repo"
  let status ← decodeStatusD data
  let spec_id ← Json.getOptStr data "spec_id"
  let spec_dir ← Json.getOptStr data "spec_dir"
  let pr_number ← Json.getOptInt data "pr_number"
  let pr_url ← Json.getOptStr data "pr_url"
  let bot_comments ← Json.getStrListD data "bot_comments"
  let error ← Json.getOptStr data "error"
  let created_at ← Json.getStrD data "created_at" now
  let updated_at ← Json.getStrD data "updated_at" now
  return { issue_number, issue_url, repo, status, spec_id, spec_dir,
           pr_number, pr_url, bot_comments, error, created_at, updated_at }

/-- `AutoFixState.update_status`: set the new status and refresh `updated_at`
to the current time (`now` models `datetime.now().isoformat()`). -/
def update_status (a : AutoFixState) (status : AutoFixStatus) (now : String) :
    AutoFixState :=
  { a with status := status, updated_at := now }

end AutoFixState

/-! ## File persistence -/

/-- Failures surfaced by a load operation on an existing file. -/
inductive LoadError where
  /-- `json.load` raised: the file's contents are not valid JSON. -/
  | parseError : LoadError
  /-- The top-level JSON value is not an object, so dict indexing raises. -/
  | notAnObject : LoadError
  /-- `from_dict` raised while decoding the parsed object. -/
  | decode (e : DecodeError) : LoadError
  deriving Repr

/-- The filesystem visible below `github_dir`: a path maps to nothing (no
file), to `.error ()` (a file that is not valid JSON), or to its parsed JSON
value. -/
abbrev FS := String → Option (Except Unit Json)

/-- `pr/review_<pr_number>.json`. -/
def reviewPath (pr_number : Int) : String :=
  "pr/review_" ++ toString pr_number ++ ".json"

/-- `issues/triage_<issue_number>.json`. -/
def triagePath (issue_number : Int) : String :=
  "issues/triage_" ++ toString issue_number ++ ".json"

/-- `issues/autofix_<issue_number>.json`. -/
def autofixPath (issue_number : Int) : String :=
  "issues/autofix_" ++ toString issue_number ++ ".json"

/-- `PRReviewResult.load`: absence value when the file does not exist;
decoding failure when its contents fail to parse or decode. -/
def PRReviewResult.load (fs : FS) (now : String) (pr_number : Int) :
    Except LoadError (Option PRReviewResult) :=
  match fs (reviewPath pr_number) with
  | none => .ok none
  | some (.error _) => .error .parseError
  | some (.ok (.obj o)) =>
    match PRReviewResult.from_dict now o with
    | .ok r => .ok (some r)
    | .error e => .error (.decode e)
  | some (.ok _) => .error .notAnObject

/-- `TriageResult.load`. -/
def TriageResult.load (fs : FS) (now : String) (issue_number : Int) :
    Except LoadError (Option TriageResult) :=
  match fs (triagePath issue_number) with
  | none => .ok none
  | some (.error _) => .error .parseError
  | some (.ok (.obj o)) =>
    match TriageResult.from_dict now o with
    | .ok t => .ok (some t)
    | .error e => .error (.decode e)
  | some (.ok _) => .error .notAnObject

/-- `AutoFixState.load`. -/
def AutoFixState.load (fs : FS) (now : String) (issue_number : Int) :
    Except LoadError (Option AutoFixState) :=
  match fs (autofixPath issue_number) with
  | none => .ok none
  | some (.error _) => .error .parseError
  | some (.ok (.obj o)) =>
    match AutoFixState.from_dict now o with
    | .ok a => .ok (some a)
    | .error e => .error (.decode e)
  | some (.ok _) => .error .notAnObject

/-! ## Index upsert protocol -/

/-- The shared upsert shape of `_update_index`: if any entry matches, replace
every matching entry in place (`[entry if matches(q) else q for q in queue]`);
otherwise append the new entry (`queue.append(entry)`). -/
def upsertEntry (isMatch : Json → Bool) (entry : Json) (xs : List Json) :
    List Json :=
  if xs.any isMatch then xs.map fun q => if isMatch q then entry else q
  else xs ++ [entry]

/-- The identifier of an index entry: `q["<field>"]` as an integer, `none`
for a malformed entry (where Python would raise while scanning). -/
def entryId (field : String) (q : Json) : Option Int :=
  match q with
  | .obj o =>
    match Json.find? o field with
    | some (.int m) => some m
    | _ => none
  | _ => none

/-- Every entry of a queue is an object carrying an integer identifier, the
region on which the total model agrees with Python's raising scan. -/
def wellFormedQueue (field : String) (xs : List Json) : Prop :=
  ∀ q ∈ xs, ∃ m : Int, entryId field q = some m

namespace PRReviewResult

/-- The summary entry `_update_index` writes for a review. -/
def indexEntry (r : PRReviewResult) : Json :=
  .obj
    [ ("pr_number", .int r.pr_number),
      ("repo", .str r.repo),
      ("overall_status", .str r.overall_status),
      ("findings_count", .int r.findings.length),
      ("reviewed_at", .str r.reviewed_at) ]

/-- `PRReviewResult._update_index` on the parsed index object: upsert into
`reviews`, stamp `last_updated`. -/
def updateIndexObj (idx : JsonObj) (r : PRReviewResult) (now : String) :
    JsonObj :=
  let reviews :=
    match Json.find? idx "reviews" with
    | some (.arr xs) => xs
    | _ => []
  let reviews :=
    upsertEntry (fun q => entryId "pr_number" q == some r.pr_number)
      (indexEntry r) reviews
  Json.setKey (Json.setKey idx "reviews" (.arr reviews)) "last_updated"
    (.str now)

/-- `PRReviewResult._update_index` including the read of `pr/index.json`:
start from the skeleton `{"reviews": [], "last_updated": null}` when the file
does not exist. -/
def updateIndexFile (prev : Option Json) (r : PRReviewResult) (now : String) :
    JsonObj :=
  match prev with
  | some (.obj o) => updateIndexObj o r now
  | some _ => updateIndexObj [] r now
  | none => updateIndexObj [("reviews", .arr []), ("last_updated", .null)] r now

end PRReviewResult

namespace AutoFixState

/-- The summary entry `_update_index` writes into the auto-fix queue. -/
def indexEntry (a : AutoFixState) : Json :=
  .obj
    [ ("issue_number", .int a.issue_number),
      ("repo", .str a.repo),
      ("status", .str a.status.toStr),
      ("spec_id", Json.ofOptStr a.spec_id),
      ("pr_number", Json.ofOptInt a.pr_number),
      ("updated_at", .str a.updated_at) ]

/-- `AutoFixState._update_index` on the parsed index object: upsert into
`auto_fix_queue`, stamp `last_updated`; every other key is untouched. -/
def updateIndexObj (idx : JsonObj) (a : AutoFixState) (now : String) :
    JsonObj :=
  let queue :=
    match Json.find? idx "auto_fix_queue" with
    | some (.arr xs) => xs
    | _ => []
  let queue :=
    upsertEntry (fun q => entryId "issue_number" q == some a.issue_number)
      (indexEntry a) queue
  Json.setKey (Json.setKey idx "auto_fix_queue" (.arr queue)) "last_updated"
    (.str now)

/-- `AutoFixState._update_index` including the read of `issues/index.json`:
start from `{"triaged": [], "auto_fix_queue": [], "last_updated": null}` when
the file does not exist. -/
def updateIndexFile (prev : Option Json) (a : AutoFixState) (now : String) :
    JsonObj :=
  match prev with
  | some (.obj o) => updateIndexObj o a now
  | some _ => updateIndexObj [] a now
  | none =>
    updateIndexObj
      [("triaged", .arr []), ("auto_fix_queue", .arr []), ("last_updated", .null)]
      a now

end AutoFixState

/-! ## GitHubRunnerConfig -/

/-- Configuration for GitHub automation runners. -/
structure GitHubRunnerConfig where
  token : String
  repo : String
  bot_token : Option String := none
  auto_fix_enabled : Bool := false
  auto_fix_labels : List String := ["auto-fix"]
  require_human_approval : Bool := true
  triage_enabled : Bool := false
  duplicate_threshold : Rat := 0.80
  spam_threshold : Rat := 0.75
  feature_creep_threshold : Rat := 0.70
  enable_triage_comments : Bool := false
  pr_review_enabled : Bool := false
  auto_post_reviews : Bool := false
  allow_fix_commits : Bool := true
  model : String := "claude-sonnet-4-20250514"
  thinking_level : String := "medium"
  deriving Repr, DecidableEq

namespace GitHubRunnerConfig

/-- `"***" if self.bot_token else None`: Python truthiness, so `None` and the
empty string both map to null. -/
def botTokenRedacted : Option String → Json
  | none => .null
  | some s => if s = "" then .null else .str "***"

/-- `GitHubRunnerConfig.to_dict`: the token entry is the constant `"***"` and
the bot_token entry depends only on the truthiness of `bot_token`. -/
def to_dict (c : GitHubRunnerConfig) : JsonObj :=
  [ ("token", .str "***"),
    ("repo", .str c.repo),
    ("bot_token", botTokenRedacted c.bot_token),
    ("auto_fix_enabled", .bool c.auto_fix_enabled),
    ("auto_fix_labels", Json.ofStrList c.auto_fix_labels),
    ("require_human_approval", .bool c.require_human_approval),
    ("triage_enabled", .bool c.triage_enabled),
    ("duplicate_threshold", .float c.duplicate_threshold),
    ("spam_threshold", .float c.spam_threshold),
    ("feature_creep_threshold", .float c.feature_creep_threshold),
    ("enable_triage_comments", .bool c.enable_triage_comments),
    ("pr_review_enabled", .bool c.pr_review_enabled),
    ("auto_post_reviews", .bool c.auto_post_reviews),
    ("allow_fix_commits", .bool c.allow_fix_commits),
    ("model", .str c.model),
    ("thinking_level", .str c.thinking_level) ]

/-- The mapping `save_settings` writes to `config.json`:
`to_dict` with `settings.pop("token", None)` and
`settings.pop("bot_token", None)` applied. -/
def settingsObj (c : GitHubRunnerConfig) : JsonObj :=
  Json.eraseKey (Json.eraseKey c.to_dict "token") "bot_token"

/-- The keyword arguments of `cls(...)` in `load_settings`, in source order:
secrets from the caller, every other field from the settings mapping with its
documented default. -/
def fromSettings (s : JsonObj) (token repo : String)
    (bot_token : Option String) : Except DecodeError GitHubRunnerConfig := do
  let auto_fix_enabled ← Json.getBoolD s "auto_fix_enabled" false
  let auto_fix_labels ← Json.getStrListD s "auto_fix_labels" ["auto-fix"]
  let require_human_approval ← Json.getBoolD s "require_human_approval" true
  let triage_enabled ← Json.getBoolD s "triage_enabled" false
  let duplicate_threshold ← Json.getFloatD s "duplicate_threshold" 0.80
  let spam_threshold ← Json.getFloatD s "spam_threshold" 0.75
  let feature_creep_threshold ← Json.getFloatD s "feature_creep_threshold" 0.70
  let enable_triage_comments ← Json.getBoolD s "enable_triage_comments" false
  let pr_review_enabled ← Json.getBoolD s "pr_review_enabled" false
  let auto_post_reviews ← Json.getBoolD s "auto_post_reviews" false
  let allow_fix_commits ← Json.getBoolD s "allow_fix_commits" true
  let model ← Json.getStrD s "model" "claude-sonnet-4-20250514"
  let thinking_level ← Json.getStrD s "thinking_level" "medium"
  return { token, repo, bot_token, auto_fix_enabled, auto_fix_labels,
           require_human_approval, triage_enabled, duplicate_threshold,
           spam_threshold, feature_creep_threshold, enable_triage_comments,
           pr_review_enabled, auto_post_reviews, allow_fix_commits, model,
           thinking_level }

/-- `GitHubRunnerConfig.load_settings`: read `config.json` when present
(empty mapping otherwise), merge with caller-supplied secrets. -/
def load_settings (file : Option (Except Unit Json)) (token repo : String)
    (bot_token : Option String := none) :
    Except LoadError GitHubRunnerConfig :=
  match file with
  | none =>
    match fromSettings [] token repo bot_token with
    | .ok c => .ok c
    | .error e => .error (.decode e)
  | some (.error _) => .error .parseError
  | some (.ok (.obj s)) =>
    match fromSettings s token repo bot_token with
    | .ok c => .ok c
    | .error e => .error (.decode e)
  | some (.ok _) => .error .notAnObject

end GitHubRunnerConfig

/-- The review saved first in the index-upsert scenario: `pr_number` 1. -/
def reviewOne : PRReviewResult :=
  { pr_number := 1, repo := "o/r", success := true,
    reviewed_at := "2024-01-01T10:00:00" }

/-- The review saved second in the scenario: `pr_number` 2. -/
def reviewTwo : PRReviewResult :=
  { pr_number := 2, repo := "o/r", success := true,
    reviewed_at := "2024-01-01T11:00:00" }

/-- The re-save of `pr_number` 1 with a different `overall_status`. -/
def reviewOneLatest : PRReviewResult :=
  { reviewOne with
    overall_status := "approve"
    reviewed_at := "2024-01-01T12:00:00" }

/-- The `pr/index.json` object after saving `reviewOne`, then `reviewTwo`,
then `reviewOneLatest` (starting with no index file). -/
def reviewIndexAfterThreeSaves : JsonObj :=
  PRReviewResult.updateIndexFile
    (some (.obj (PRReviewResult.updateIndexFile
      (some (.obj (PRReviewResult.updateIndexFile none reviewOne "t1")))
      reviewTwo "t2")))
    reviewOneLatest "t3"

/-- A well-formed finding mapping whose `end_line` (5) is below `line` (10):
the decoder accepts it unchanged. -/
def badFindingObj : JsonObj :=
  [ ("id", .str "f1"), ("severity", .str "high"), ("category", .str "style"),
    ("title", .str "t"), ("description", .str "d"), ("file", .str "m.py"),
    ("line", .int 10), ("end_line", .int 5) ]

/-- The finding `from_dict` produces for `badFindingObj`. -/
def badFinding : PRReviewFinding :=
  { id := "f1", severity := .high, category := .style, title := "t",
    description := "d", file := "m.py", line := 10, end_line := some 5 }

/-- The spec's claimed finding invariant: a present `end_line` is ≥ `line`. -/
def findingInv (f : PRReviewFinding) : Prop :=
  ∀ e, f.end_line = some e → f.line ≤ e

/-- A demo finding used to instantiate decoding claims. -/
def demoFinding : PRReviewFinding :=
  { id := "f1", severity := .critical, category := .security,
    title := "t", description := "d", file := "a.py", line := 3 }

/-- A demo triage result used to instantiate decoding claims. -/
def demoTriage : TriageResult :=
  { issue_number := 5, repo := "o/r", category := .bug, confidence := 0.9,
    triaged_at := "t1" }

/-- A demo auto-fix state used to instantiate state and index claims. -/
def demoAutofix : AutoFixState :=
  { issue_number := 42, issue_url := "https://x/42", repo := "o/r",
    created_at := "2024-01-01T10:00:00",
    updated_at := "2024-01-01T10:00:00" }

/-- A demo filesystem: `pr/review_7.json` holds invalid JSON,
`pr/review_9.json` an empty object, every other path is absent. -/
def fsDemo : FS := fun p =>
  if p = "pr/review_7.json" then some (.error ())
  else if p = "pr/review_9.json" then some (.ok (.obj []))
  else none

/-- A demo `config.json` mapping: two feature keys present, the rest absent,
plus a `token` key that `load_settings` must ignore. -/
def demoSettings : JsonObj :=
  [ ("triage_enabled", .bool true), ("model", .str "m-x"),
    ("token", .str "file-token-to-ignore") ]

/-- A well-formed finding mapping whose `end_line` (7) is ≥ `line` (3). -/
def goodFindingObj : JsonObj :=
  [ ("id", .str "f2"), ("severity", .str "low"), ("category", .str "docs"),
    ("title", .str "t"), ("description", .str "d"), ("file", .str "m.py"),
    ("line", .int 3), ("end_line", .int 7) ]

/-- A demo pre-existing `issues/index.json` object carrying a `triaged` list
and an unknown extra key. -/
def demoIndexObj : JsonObj :=
  [ ("triaged", .arr [.str "x"]), ("auto_fix_queue", .arr []),
    ("last_updated", .null), ("extra", .int 1) ]

/-! ## Helper lemmas -/

/-- Reduce a bind whose first component already succeeded. -/
theorem except_bind_ok {ε α β : Type _} (a : α) (f : α → Except ε β) :
    (Except.ok a : Except ε α) >>= f = f a := rfl

/-- Reduce a bind whose first component already failed. -/
theorem except_bind_error {ε α β : Type _} (e : ε) (f : α → Except ε β) :
    (Except.error e : Except ε α) >>= f = Except.error e := rfl

/-- Encoding a severity to its string value and re-validating it recovers the
member. -/
theorem reviewSeverity_ofStr_toStr (x : ReviewSeverity) :
    ReviewSeverity.ofStr x.toStr = some x := by cases x <;> rfl

/-- Encoding a review category and re-validating it recovers the member. -/
theorem reviewCategory_ofStr_toStr (x : ReviewCategory) :
    ReviewCategory.ofStr x.toStr = some x := by cases x <;> rfl

/-- Encoding a triage category and re-validating it recovers the member. -/
theorem triageCategory_ofStr_toStr (x : TriageCategory) :
    TriageCategory.ofStr x.toStr = some x := by cases x <;> rfl

/-- Encoding an auto-fix status and re-validating it recovers the member. -/
theorem autoFixStatus_ofStr_toStr (x : AutoFixStatus) :
    AutoFixStatus.ofStr x.toStr = some x := by cases x <;> rfl

/-- Round-trip for a single finding: decoding its own encoding recovers it. -/
theorem prReviewFinding_roundtrip (f : PRReviewFinding) :
    PRReviewFinding.from_dict f.to_dict = .ok f := by
  rcases f with ⟨i, sev, cat, t, d, fl, l, el, sf, fx⟩
  cases el <;> cases sf <;>
    (simp [PRReviewFinding.from_dict, PRReviewFinding.to_dict, except_bind_ok,
       Json.getStr,
       Json.getRaw, Json.getInt, Json.getOptInt, Json.getOptStr, Json.getBoolD,
       Json.find?, Json.ofOptInt, Json.ofOptStr, ReviewSeverity.decode,
       ReviewCategory.decode, reviewSeverity_ofStr_toStr,
       reviewCategory_ofStr_toStr])

/-- Decoding the element-wise encoding of a findings list recovers the list
(stated on `List.mapM`'s accumulator loop). -/
theorem findings_mapM_loop (fs acc : List PRReviewFinding) :
    List.mapM.loop PRReviewResult.decodeFinding
      (fs.map fun f => Json.obj f.to_dict) acc = .ok (acc.reverse ++ fs) := by
  induction fs generalizing acc with
  | nil => simp [List.mapM.loop]; rfl
  | cons f rest ih =>
    simp [List.mapM.loop, PRReviewResult.decodeFinding,
      prReviewFinding_roundtrip f, ih]
    rfl

/-- Decoding the element-wise encoding of a string list recovers the list. -/
theorem strList_mapM_loop (xs acc : List String) :
    List.mapM.loop Json.asStr (xs.map Json.str) acc =
      .ok (acc.reverse ++ xs) := by
  induction xs generalizing acc with
  | nil => simp [List.mapM.loop]; rfl
  | cons x rest ih => simp [List.mapM.loop, Json.asStr, ih]; rfl

/-- Round-trip for a review result: decoding its own encoding recovers it. -/
theorem prReviewResult_roundtrip (now : String) (r : PRReviewResult) :
    PRReviewResult.from_dict now r.to_dict = .ok r := by
  rcases r with ⟨pr, rp, su, fnd, sm, ov, rid, rat, err⟩
  cases rid <;> cases err <;>
    (simp [PRReviewResult.from_dict, PRReviewResult.to_dict, except_bind_ok,
       PRReviewResult.getFindings, Json.getInt, Json.getStr, Json.getBool,
       Json.getStrD, Json.getOptInt, Json.getOptStr, Json.find?,
       Json.ofOptInt, Json.ofOptStr, findings_mapM_loop])

/-- Round-trip for a triage result: decoding its own encoding recovers it. -/
theorem triageResult_roundtrip (now : String) (t : TriageResult) :
    TriageResult.from_dict now t.to_dict = .ok t := by
  rcases t with ⟨n, rp, cat, cf, la, lr, dup, dof, sp, fc, sb, pri, cm, ta⟩
  cases dof <;> cases cm <;>
    (simp [TriageResult.from_dict, TriageResult.to_dict, except_bind_ok,
       Json.getInt,
       Json.getStr, Json.getRaw, Json.getFloat, Json.getStrListD,
       Json.getBoolD, Json.getOptInt, Json.getOptStr, Json.getStrD,
       Json.find?, Json.ofOptInt, Json.ofOptStr, Json.ofStrList,
       TriageCategory.decode, triageCategory_ofStr_toStr, strList_mapM_loop])

/-- Round-trip for an auto-fix state: decoding its own encoding recovers it. -/
theorem autoFixState_roundtrip (now : String) (a : AutoFixState) :
    AutoFixState.from_dict now a.to_dict = .ok a := by
  rcases a with ⟨n, url, rp, st, sid, sdir, prn, pru, bc, er, ca, ua⟩
  cases sid <;> cases sdir <;> cases prn <;> cases pru <;> cases er <;>
    (simp [AutoFixState.from_dict, AutoFixState.to_dict, except_bind_ok,
       AutoFixState.decodeStatusD, Json.getInt, Json.getStr, Json.getOptStr,
       Json.getOptInt, Json.getStrListD, Json.getStrD, Json.find?,
       Json.ofOptInt, Json.ofOptStr, Json.ofStrList, AutoFixStatus.decode,
       autoFixStatus_ofStr_toStr, strList_mapM_loop])

/-- Writing key `k` makes a later lookup of `k` read the written value. -/
theorem Json.find?_setKey_self (o : JsonObj) (k : String) (v : Json) :
    Json.find? (Json.setKey o k v) k = some v := by
  induction o with
  | nil => simp [Json.setKey, Json.find?]
  | cons kv rest ih =>
    rcases kv with ⟨k', v'⟩
    by_cases h : k' = k <;> simp [Json.setKey, Json.find?, h, ih]

/-- Writing key `k` leaves the lookup of any other key unchanged. -/
theorem Json.find?_setKey_ne (o : JsonObj) (k k' : String) (v : Json)
    (h : k' ≠ k) : Json.find? (Json.setKey o k v) k' = Json.find? o k' := by
  induction o with
  | nil => simp [Json.setKey, Json.find?, Ne.symm h]
  | cons kv rest ih =>
    rcases kv with ⟨k₀, v₀⟩
    by_cases h0 : k₀ = k
    · subst h0
      simp [Json.setKey, Json.find?, Ne.symm h]
    · simp [Json.setKey, Json.find?, h0, ih]

/-- A successful required-integer read pins down the stored value. -/
theorem Json.getInt_ok (d : JsonObj) (k : String) (n : Int)
    (h : Json.getInt d k = .ok n) : Json.find? d k = some (.int n) := by
  unfold Json.getInt at h
  split at h <;> simp_all

/-- A successful optional-integer read returning a value pins down the stored
value. -/
theorem Json.getOptInt_ok_some (d : JsonObj) (k : String) (n : Int)
    (h : Json.getOptInt d k = .ok (some n)) :
    Json.find? d k = some (.int n) := by
  unfold Json.getOptInt at h
  split at h <;> simp_all

/-! ## Claims -/

/-- C1: for every valid construction of each record type
(`PRReviewFinding`, `PRReviewResult`, `TriageResult`, `AutoFixState`),
`from_dict (to_dict x)` reproduces every field of `x` exactly — nested
findings lists, enum-valued fields, optional fields left at `none`, and
timestamp strings included (encode always emits the stored timestamps, so
decode's current-time defaults never fire). -/
theorem decode_encode_roundtrip (now : String) (f : PRReviewFinding)
    (r : PRReviewResult) (t : TriageResult) (a : AutoFixState) :
    PRReviewFinding.from_dict f.to_dict = .ok f ∧
    PRReviewResult.from_dict now r.to_dict = .ok r ∧
    TriageResult.from_dict now t.to_dict = .ok t ∧
    AutoFixState.from_dict now a.to_dict = .ok a :=
  ⟨prReviewFinding_roundtrip f, prReviewResult_roundtrip now r,
   triageResult_roundtrip now t, autoFixState_roundtrip now a⟩

/-- C2: the mapping `save_settings` writes is identical for any two configs
differing only in their `token`/`bot_token` values, carries no `token` or
`bot_token` key at all, and `to_dict` redacts: its token entry is the constant
`"***"` and its bot_token entry is null or `"***"`, never the secret. -/
theorem config_secrets_never_written (c : GitHubRunnerConfig)
    (t₁ t₂ : String) (b₁ b₂ : Option String) :
    GitHubRunnerConfig.settingsObj { c with token := t₁, bot_token := b₁ } =
      GitHubRunnerConfig.settingsObj { c with token := t₂, bot_token := b₂ } ∧
    Json.find? (GitHubRunnerConfig.settingsObj c) "token" = none ∧
    Json.find? (GitHubRunnerConfig.settingsObj c) "bot_token" = none ∧
    Json.find? c.to_dict "token" = some (.str "***") ∧
    (Json.find? c.to_dict "bot_token" = some .null ∨
      Json.find? c.to_dict "bot_token" = some (.str "***")) := by
  refine ⟨rfl, rfl, rfl, rfl, ?_⟩
  rcases hb : c.bot_token with _ | s
  · left
    simp [GitHubRunnerConfig.to_dict, GitHubRunnerConfig.botTokenRedacted,
      Json.find?, hb]
  · by_cases hs : s = ""
    · left
      simp [GitHubRunnerConfig.to_dict, GitHubRunnerConfig.botTokenRedacted,
        Json.find?, hb, hs]
    · right
      simp [GitHubRunnerConfig.to_dict, GitHubRunnerConfig.botTokenRedacted,
        Json.find?, hb, hs]

/-- C8: `update_status` sets the status and stamps `updated_at` with the
current time in one step; when the clock has not moved backwards the new
`updated_at` is ≥ the old one, and every other field is unchanged. -/
theorem update_status_spec (a : AutoFixState) (v : AutoFixStatus)
    (now : String) (h : a.updated_at ≤ now) :
    (a.update_status v now).status = v ∧
    (a.update_status v now).updated_at = now ∧
    a.updated_at ≤ (a.update_status v now).updated_at ∧
    (a.update_status v now).issue_number = a.issue_number ∧
    (a.update_status v now).issue_url = a.issue_url ∧
    (a.update_status v now).repo = a.repo ∧
    (a.update_status v now).spec_id = a.spec_id ∧
    (a.update_status v now).spec_dir = a.spec_dir ∧
    (a.update_status v now).pr_number = a.pr_number ∧
    (a.update_status v now).pr_url = a.pr_url ∧
    (a.update_status v now).bot_comments = a.bot_comments ∧
    (a.update_status v now).error = a.error ∧
    (a.update_status v now).created_at = a.created_at :=
  ⟨rfl, rfl, h, rfl, rfl, rfl, rfl, rfl, rfl, rfl, rfl, rfl, rfl⟩

/-- C10: `AutoFixState._update_index` rewrites only the `auto_fix_queue` and
`last_updated` keys of a pre-existing `issues/index.json`; every other key
(`triaged` and unknown extras included) reads the same after the update. -/
theorem autofix_index_preserves_other_keys (o : JsonObj) (a : AutoFixState)
    (now : String) (k : String)
    (_hq : wellFormedQueue "issue_number"
      (match Json.find? o "auto_fix_queue" with
       | some (.arr xs) => xs
       | _ => []))
    (h1 : k ≠ "auto_fix_queue") (h2 : k ≠ "last_updated") :
    Json.find? (AutoFixState.updateIndexFile (some (.obj o)) a now) k =
      Json.find? o k := by
  unfold AutoFixState.updateIndexFile AutoFixState.updateIndexObj
  rw [Json.find?_setKey_ne _ _ _ _ h2, Json.find?_setKey_ne _ _ _ _ h1]

/-- C3: the index upsert scans the entry list for the record's identifier,
replaces matching entries in place (preserving positions) when found and
appends otherwise — for both `PRReviewResult` and `AutoFixState` — and the
concrete save sequence 1, 2, then 1 again with a different status yields
exactly two entries, 1 before 2, with entry 1 carrying the latest status. -/
theorem index_upsert_spec (idx aidx : JsonObj) (r : PRReviewResult)
    (a : AutoFixState) (now : String) (xs qs : List Json)
    (hr : Json.find? idx "reviews" = some (.arr xs))
    (ha : Json.find? aidx "auto_fix_queue" = some (.arr qs))
    (_hwr : wellFormedQueue "pr_number" xs)
    (_hwa : wellFormedQueue "issue_number" qs) :
    ((∀ q ∈ xs, ¬ entryId "pr_number" q = some r.pr_number) →
      Json.find? (PRReviewResult.updateIndexObj idx r now) "reviews" =
        some (.arr (xs ++ [r.indexEntry]))) ∧
    ((∃ q ∈ xs, entryId "pr_number" q = some r.pr_number) →
      Json.find? (PRReviewResult.updateIndexObj idx r now) "reviews" =
        some (.arr (xs.map fun q =>
          if entryId "pr_number" q = some r.pr_number then r.indexEntry
          else q))) ∧
    ((∀ q ∈ qs, ¬ entryId "issue_number" q = some a.issue_number) →
      Json.find? (AutoFixState.updateIndexObj aidx a now) "auto_fix_queue" =
        some (.arr (qs ++ [a.indexEntry]))) ∧
    ((∃ q ∈ qs, entryId "issue_number" q = some a.issue_number) →
      Json.find? (AutoFixState.updateIndexObj aidx a now) "auto_fix_queue" =
        some (.arr (qs.map fun q =>
          if entryId "issue_number" q = some a.issue_number then a.indexEntry
          else q))) ∧
    Json.find? reviewIndexAfterThreeSaves "reviews" =
      some (.arr [PRReviewResult.indexEntry reviewOneLatest,
                  PRReviewResult.indexEntry reviewTwo]) := by
  refine ⟨?_, ?_, ?_, ?_, rfl⟩
  · intro hnone
    unfold PRReviewResult.updateIndexObj
    rw [hr]
    rw [Json.find?_setKey_ne _ _ _ _ (by decide), Json.find?_setKey_self]
    have hany : xs.any
        (fun q => entryId "pr_number" q == some r.pr_number) = false := by
      simp only [List.any_eq_false, beq_iff_eq]
      exact hnone
    simp [upsertEntry, hany]
  · intro hsome
    unfold PRReviewResult.updateIndexObj
    rw [hr]
    rw [Json.find?_setKey_ne _ _ _ _ (by decide), Json.find?_setKey_self]
    have hany : xs.any
        (fun q => entryId "pr_number" q == some r.pr_number) = true := by
      simp only [List.any_eq_true, beq_iff_eq]
      exact hsome
    simp [upsertEntry, hany]
  · intro hnone
    unfold AutoFixState.updateIndexObj
    rw [ha]
    rw [Json.find?_setKey_ne _ _ _ _ (by decide), Json.find?_setKey_self]
    have hany : qs.any
        (fun q => entryId "issue_number" q == some a.issue_number) = false := by
      simp only [List.any_eq_false, beq_iff_eq]
      exact hnone
    simp [upsertEntry, hany]
  · intro hsome
    unfold AutoFixState.updateIndexObj
    rw [ha]
    rw [Json.find?_setKey_ne _ _ _ _ (by decide), Json.find?_setKey_self]
    have hany : qs.any
        (fun q => entryId "issue_number" q == some a.issue_number) = true := by
      simp only [List.any_eq_true, beq_iff_eq]
      exact hsome
    simp [upsertEntry, hany]

/-- C4: for each record type with a `load`, a missing file yields the
distinguished absence value `ok none`, while an existing file that is
malformed JSON or fails decoding surfaces a failure, never the absence
value. -/
theorem load_absence_vs_failure (fs : FS) (now : String) (n : Int) :
    (fs (reviewPath n) = none → PRReviewResult.load fs now n = .ok none) ∧
    (fs (reviewPath n) = some (.error ()) →
      PRReviewResult.load fs now n = .error .parseError) ∧
    (∀ o e, fs (reviewPath n) = some (.ok (.obj o)) →
      PRReviewResult.from_dict now o = .error e →
      PRReviewResult.load fs now n = .error (.decode e)) ∧
    (fs (triagePath n) = none → TriageResult.load fs now n = .ok none) ∧
    (fs (triagePath n) = some (.error ()) →
      TriageResult.load fs now n = .error .parseError) ∧
    (∀ o e, fs (triagePath n) = some (.ok (.obj o)) →
      TriageResult.from_dict now o = .error e →
      TriageResult.load fs now n = .error (.decode e)) ∧
    (fs (autofixPath n) = none → AutoFixState.load fs now n = .ok none) ∧
    (fs (autofixPath n) = some (.error ()) →
      AutoFixState.load fs now n = .error .parseError) ∧
    (∀ o e, fs (autofixPath n) = some (.ok (.obj o)) →
      AutoFixState.from_dict now o = .error e →
      AutoFixState.load fs now n = .error (.decode e)) := by
  refine ⟨?_, ?_, ?_, ?_, ?_, ?_, ?_, ?_, ?_⟩
  · intro h; simp [PRReviewResult.load, h]
  · intro h; simp [PRReviewResult.load, h]
  · intro o e h hd; simp [PRReviewResult.load, h, hd]
  · intro h; simp [TriageResult.load, h]
  · intro h; simp [TriageResult.load, h]
  · intro o e h hd; simp [TriageResult.load, h, hd]
  · intro h; simp [AutoFixState.load, h]
  · intro h; simp [AutoFixState.load, h]
  · intro o e h hd; simp [AutoFixState.load, h, hd]

/-- C5: removing any required key from an otherwise valid encoded mapping
makes `from_dict` fail with `missingField` naming exactly that key, for every
record type. -/
theorem from_dict_missing_required (now : String) (f : PRReviewFinding)
    (r : PRReviewResult) (t : TriageResult) (a : AutoFixState) :
    (∀ k ∈ ["id", "severity", "category", "title", "description", "file",
            "line"],
      PRReviewFinding.from_dict (Json.eraseKey f.to_dict k) =
        .error (.missingField k)) ∧
    (∀ k ∈ ["pr_number", "repo", "success"],
      PRReviewResult.from_dict now (Json.eraseKey r.to_dict k) =
        .error (.missingField k)) ∧
    (∀ k ∈ ["issue_number", "repo", "category", "confidence"],
      TriageResult.from_dict now (Json.eraseKey t.to_dict k) =
        .error (.missingField k)) ∧
    (∀ k ∈ ["issue_number", "issue_url", "repo"],
      AutoFixState.from_dict now (Json.eraseKey a.to_dict k) =
        .error (.missingField k)) := by
  refine ⟨?_, ?_, ?_, ?_⟩
  · intro k hk
    fin_cases hk <;>
      simp [PRReviewFinding.from_dict, PRReviewFinding.to_dict, Json.eraseKey,
        except_bind_ok, except_bind_error, Json.getStr, Json.getRaw,
        Json.getInt, Json.getOptInt, Json.getOptStr, Json.getBoolD,
        Json.find?, Json.ofOptInt, Json.ofOptStr, ReviewSeverity.decode,
        ReviewCategory.decode, reviewSeverity_ofStr_toStr,
        reviewCategory_ofStr_toStr]
  · intro k hk
    fin_cases hk <;>
      simp [PRReviewResult.from_dict, PRReviewResult.to_dict, Json.eraseKey,
        except_bind_ok, except_bind_error, PRReviewResult.getFindings,
        Json.getInt, Json.getStr, Json.getBool, Json.getStrD, Json.getOptInt,
        Json.getOptStr, Json.find?, Json.ofOptInt, Json.ofOptStr,
        findings_mapM_loop]
  · intro k hk
    fin_cases hk <;>
      simp [TriageResult.from_dict, TriageResult.to_dict, Json.eraseKey,
        except_bind_ok, except_bind_error, Json.getInt, Json.getStr,
        Json.getRaw, Json.getFloat, Json.getStrListD, Json.getBoolD,
        Json.getOptInt, Json.getOptStr, Json.getStrD, Json.find?,
        Json.ofOptInt, Json.ofOptStr, Json.ofStrList, TriageCategory.decode,
        triageCategory_ofStr_toStr, strList_mapM_loop]
  · intro k hk
    fin_cases hk <;>
      simp [AutoFixState.from_dict, AutoFixState.to_dict, Json.eraseKey,
        except_bind_ok, except_bind_error, AutoFixState.decodeStatusD,
        Json.getInt, Json.getStr, Json.getOptStr, Json.getOptInt,
        Json.getStrListD, Json.getStrD, Json.find?, Json.ofOptInt,
        Json.ofOptStr, Json.ofStrList, AutoFixStatus.decode,
        autoFixStatus_ofStr_toStr, strList_mapM_loop]

/-- C6: a string outside the closed vocabulary in any enum-valued field makes
`from_dict` fail with `invalidEnumValue` carrying the enum's name and the
offending value, for all four enums. -/
theorem from_dict_invalid_enum (now s : String) (f : PRReviewFinding)
    (t : TriageResult) (a : AutoFixState) :
    (ReviewSeverity.ofStr s = none →
      PRReviewFinding.from_dict (Json.setKey f.to_dict "severity" (.str s)) =
        .error (.invalidEnumValue "ReviewSeverity" (.str s))) ∧
    (ReviewCategory.ofStr s = none →
      PRReviewFinding.from_dict (Json.setKey f.to_dict "category" (.str s)) =
        .error (.invalidEnumValue "ReviewCategory" (.str s))) ∧
    (TriageCategory.ofStr s = none →
      TriageResult.from_dict now (Json.setKey t.to_dict "category" (.str s)) =
        .error (.invalidEnumValue "TriageCategory" (.str s))) ∧
    (AutoFixStatus.ofStr s = none →
      AutoFixState.from_dict now (Json.setKey a.to_dict "status" (.str s)) =
        .error (.invalidEnumValue "AutoFixStatus" (.str s))) := by
  refine ⟨?_, ?_, ?_, ?_⟩
  · intro h
    simp [PRReviewFinding.from_dict, PRReviewFinding.to_dict, Json.setKey,
      except_bind_ok, except_bind_error, Json.getStr, Json.getRaw,
      Json.find?, ReviewSeverity.decode, h]
  · intro h
    simp [PRReviewFinding.from_dict, PRReviewFinding.to_dict, Json.setKey,
      except_bind_ok, except_bind_error, Json.getStr, Json.getRaw,
      Json.find?, ReviewSeverity.decode, ReviewCategory.decode,
      reviewSeverity_ofStr_toStr, h]
  · intro h
    simp [TriageResult.from_dict, TriageResult.to_dict, Json.setKey,
      except_bind_ok, except_bind_error, Json.getInt, Json.getStr,
      Json.getRaw, Json.find?, TriageCategory.decode, h]
  · intro h
    simp [AutoFixState.from_dict, AutoFixState.to_dict, Json.setKey,
      except_bind_ok, except_bind_error, AutoFixState.decodeStatusD,
      Json.getInt, Json.getStr, Json.find?, AutoFixStatus.decode, h]

/-- C7: `load_settings` takes `token`/`repo`/`bot_token` from the caller's
arguments (never from the file) and every other field from `config.json` when
its key is present, falling back to the documented default when the key — or
the whole file — is absent. -/
theorem github_load_settings_spec (t r : String) (b : Option String)
    (s : JsonObj) (v1 : Bool) (v2 : List String) (v3 v4 : Bool)
    (v5 v6 v7 : Rat) (v8 v9 v10 v11 : Bool) (v12 v13 : String)
    (h1 : Json.find? s "auto_fix_enabled" = some (.bool v1) ∨
      (Json.find? s "auto_fix_enabled" = none ∧ v1 = false))
    (h2 : Json.find? s "auto_fix_labels" = some (Json.ofStrList v2) ∨
      (Json.find? s "auto_fix_labels" = none ∧ v2 = ["auto-fix"]))
    (h3 : Json.find? s "require_human_approval" = some (.bool v3) ∨
      (Json.find? s "require_human_approval" = none ∧ v3 = true))
    (h4 : Json.find? s "triage_enabled" = some (.bool v4) ∨
      (Json.find? s "triage_enabled" = none ∧ v4 = false))
    (h5 : Json.find? s "duplicate_threshold" = some (.float v5) ∨
      (Json.find? s "duplicate_threshold" = none ∧ v5 = 0.80))
    (h6 : Json.find? s "spam_threshold" = some (.float v6) ∨
      (Json.find? s "spam_threshold" = none ∧ v6 = 0.75))
    (h7 : Json.find? s "feature_creep_threshold" = some (.float v7) ∨
      (Json.find? s "feature_creep_threshold" = none ∧ v7 = 0.70))
    (h8 : Json.find? s "enable_triage_comments" = some (.bool v8) ∨
      (Json.find? s "enable_triage_comments" = none ∧ v8 = false))
    (h9 : Json.find? s "pr_review_enabled" = some (.bool v9) ∨
      (Json.find? s "pr_review_enabled" = none ∧ v9 = false))
    (h10 : Json.find? s "auto_post_reviews" = some (.bool v10) ∨
      (Json.find? s "auto_post_reviews" = none ∧ v10 = false))
    (h11 : Json.find? s "allow_fix_commits" = some (.bool v11) ∨
      (Json.find? s "allow_fix_commits" = none ∧ v11 = true))
    (h12 : Json.find? s "model" = some (.str v12) ∨
      (Json.find? s "model" = none ∧ v12 = "claude-sonnet-4-20250514"))
    (h13 : Json.find? s "thinking_level" = some (.str v13) ∨
      (Json.find? s "thinking_level" = none ∧ v13 = "medium")) :
    GitHubRunnerConfig.load_settings (some (.ok (.obj s))) t r b =
      .ok { token := t, repo := r, bot_token := b, auto_fix_enabled := v1,
            auto_fix_labels := v2, require_human_approval := v3,
            triage_enabled := v4, duplicate_threshold := v5,
            spam_threshold := v6, feature_creep_threshold := v7,
            enable_triage_comments := v8, pr_review_enabled := v9,
            auto_post_reviews := v10, allow_fix_commits := v11,
            model := v12, thinking_level := v13 } ∧
    GitHubRunnerConfig.load_settings none t r b =
      .ok { token := t, repo := r, bot_token := b } := by
  constructor
  · have g1 : Json.getBoolD s "auto_fix_enabled" false = .ok v1 := by
      rcases h1 with h | ⟨h, rfl⟩ <;> simp [Json.getBoolD, h]
    have g2 : Json.getStrListD s "auto_fix_labels" ["auto-fix"] = .ok v2 := by
      rcases h2 with h | ⟨h, rfl⟩ <;>
        simp [Json.getStrListD, h, Json.ofStrList, List.mapM, strList_mapM_loop]
    have g3 : Json.getBoolD s "require_human_approval" true = .ok v3 := by
      rcases h3 with h | ⟨h, rfl⟩ <;> simp [Json.getBoolD, h]
    have g4 : Json.getBoolD s "triage_enabled" false = .ok v4 := by
      rcases h4 with h | ⟨h, rfl⟩ <;> simp [Json.getBoolD, h]
    have g5 : Json.getFloatD s "duplicate_threshold" 0.80 = .ok v5 := by
      rcases h5 with h | ⟨h, rfl⟩ <;> simp [Json.getFloatD, h]
    have g6 : Json.getFloatD s "spam_threshold" 0.75 = .ok v6 := by
      rcases h6 with h | ⟨h, rfl⟩ <;> simp [Json.getFloatD, h]
    have g7 : Json.getFloatD s "feature_creep_threshold" 0.70 = .ok v7 := by
      rcases h7 with h | ⟨h, rfl⟩ <;> simp [Json.getFloatD, h]
    have g8 : Json.getBoolD s "enable_triage_comments" false = .ok v8 := by
      rcases h8 with h | ⟨h, rfl⟩ <;> simp [Json.getBoolD, h]
    have g9 : Json.getBoolD s "pr_review_enabled" false = .ok v9 := by
      rcases h9 with h | ⟨h, rfl⟩ <;> simp [Json.getBoolD, h]
    have g10 : Json.getBoolD s "auto_post_reviews" false = .ok v10 := by
      rcases h10 with h | ⟨h, rfl⟩ <;> simp [Json.getBoolD, h]
    have g11 : Json.getBoolD s "allow_fix_commits" true = .ok v11 := by
      rcases h11 with h | ⟨h, rfl⟩ <;> simp [Json.getBoolD, h]
    have g12 : Json.getStrD s "model" "claude-sonnet-4-20250514" = .ok v12 := by
      rcases h12 with h | ⟨h, rfl⟩ <;> simp [Json.getStrD, h]
    have g13 : Json.getStrD s "thinking_level" "medium" = .ok v13 := by
      rcases h13 with h | ⟨h, rfl⟩ <;> simp [Json.getStrD, h]
    simp [GitHubRunnerConfig.load_settings, GitHubRunnerConfig.fromSettings,
      g1, g2, g3, g4, g5, g6, g7, g8, g9, g10, g11, g12, g13, except_bind_ok]
  · rfl

/-- C9 counterexample: `from_dict` accepts a well-formed mapping with
`end_line` 5 < `line` 10 and produces a finding violating the claimed
invariant — nothing in the code enforces `end_line ≥ line`. -/
theorem finding_end_line_invariant_cex :
    PRReviewFinding.from_dict badFindingObj = .ok badFinding ∧
    ¬ findingInv badFinding := by
  constructor
  · rfl
  · intro h
    exact absurd (h 5 rfl) (by decide)

/-- C9 amended: decoding passes `line` and `end_line` through unchanged, so a
finding decoded from a mapping whose values satisfy `end_line ≥ line` (in
particular one whose `end_line` is absent) satisfies the invariant; the
invariant is not enforced for other inputs. -/
theorem finding_end_line_invariant_amended (d : JsonObj) (f : PRReviewFinding)
    (hdec : PRReviewFinding.from_dict d = .ok f)
    (hord : ∀ n e : Int, Json.find? d "line" = some (.int n) →
      Json.find? d "end_line" = some (.int e) → n ≤ e) :
    findingInv f := by
  intro e he
  unfold PRReviewFinding.from_dict at hdec
  rcases h1 : Json.getStr d "id" with e1 | idv <;>
    simp only [h1, except_bind_ok, except_bind_error] at hdec
  · simp at hdec
  rcases h2 : Json.getRaw d "severity" with e2 | sv <;>
    simp only [h2, except_bind_ok, except_bind_error] at hdec
  · simp at hdec
  rcases h3 : ReviewSeverity.decode sv with e3 | sev <;>
    simp only [h3, except_bind_ok, except_bind_error] at hdec
  · simp at hdec
  rcases h4 : Json.getRaw d "category" with e4 | cv <;>
    simp only [h4, except_bind_ok, except_bind_error] at hdec
  · simp at hdec
  rcases h5 : ReviewCategory.decode cv with e5 | cat <;>
    simp only [h5, except_bind_ok, except_bind_error] at hdec
  · simp at hdec
  rcases h6 : Json.getStr d "title" with e6 | tv <;>
    simp only [h6, except_bind_ok, except_bind_error] at hdec
  · simp at hdec
  rcases h7 : Json.getStr d "description" with e7 | dv <;>
    simp only [h7, except_bind_ok, except_bind_error] at hdec
  · simp at hdec
  rcases h8 : Json.getStr d "file" with e8 | fv <;>
    simp only [h8, except_bind_ok, except_bind_error] at hdec
  · simp at hdec
  rcases h9 : Json.getInt d "line" with e9 | lv <;>
    simp only [h9, except_bind_ok, except_bind_error] at hdec
  · simp at hdec
  rcases h10 : Json.getOptInt d "end_line" with e10 | elv <;>
    simp only [h10, except_bind_ok, except_bind_error] at hdec
  · simp at hdec
  rcases h11 : Json.getOptStr d "suggested_fix" with e11 | sfv <;>
    simp only [h11, except_bind_ok, except_bind_error] at hdec
  · simp at hdec
  rcases h12 : Json.getBoolD d "fixable" false with e12 | fxv <;>
    simp only [h12, except_bind_ok, except_bind_error] at hdec
  · simp at hdec
  have hf : f = ⟨idv, sev, cat, tv, dv, fv, lv, elv, sfv, fxv⟩ :=
    (Except.ok.inj hdec).symm
  subst hf
  have he' : elv = some e := he
  subst he'
  exact hord lv e (Json.getInt_ok d "line" lv h9)
    (Json.getOptInt_ok_some d "end_line" e h10)

/-- Witness for C3 at concrete inputs: appending into an empty entry list for
both index-owning record types. -/
theorem index_upsert_spec_witness :
    Json.find? (PRReviewResult.updateIndexObj [("reviews", Json.arr [])]
        reviewOne "t0") "reviews" =
      some (.arr ([] ++ [reviewOne.indexEntry])) ∧
    Json.find? (AutoFixState.updateIndexObj [("auto_fix_queue", Json.arr [])]
        demoAutofix "t0") "auto_fix_queue" =
      some (.arr ([] ++ [demoAutofix.indexEntry])) := by
  obtain ⟨p1, _, p3, _, _⟩ :=
    index_upsert_spec [("reviews", Json.arr [])]
      [("auto_fix_queue", Json.arr [])] reviewOne demoAutofix "t0" [] []
      rfl rfl (by intro q hq; simp at hq) (by intro q hq; simp at hq)
  exact ⟨p1 (by intro q hq; simp at hq), p3 (by intro q hq; simp at hq)⟩

/-- Witness for C4 at a concrete filesystem: a missing review file loads as
`ok none`, a malformed one as `parseError`, an empty object as a
`missingField` decode failure. -/
theorem load_absence_vs_failure_witness :
    PRReviewResult.load fsDemo "t0" 3 = .ok none ∧
    PRReviewResult.load fsDemo "t0" 7 = .error .parseError ∧
    PRReviewResult.load fsDemo "t0" 9 =
      .error (.decode (.missingField "pr_number")) := by
  refine ⟨(load_absence_vs_failure fsDemo "t0" 3).1 ?_,
          (load_absence_vs_failure fsDemo "t0" 7).2.1 ?_,
          (load_absence_vs_failure fsDemo "t0" 9).2.2.1 []
            (.missingField "pr_number") ?_ ?_⟩ <;> rfl

/-- Witness for C5 at concrete records: one removed required key per record
type. -/
theorem from_dict_missing_required_witness :
    PRReviewFinding.from_dict (Json.eraseKey demoFinding.to_dict "id") =
      .error (.missingField "id") ∧
    PRReviewResult.from_dict "t0" (Json.eraseKey reviewOne.to_dict
      "pr_number") = .error (.missingField "pr_number") ∧
    TriageResult.from_dict "t0" (Json.eraseKey demoTriage.to_dict
      "confidence") = .error (.missingField "confidence") ∧
    AutoFixState.from_dict "t0" (Json.eraseKey demoAutofix.to_dict
      "issue_url") = .error (.missingField "issue_url") := by
  obtain ⟨p1, p2, p3, p4⟩ :=
    from_dict_missing_required "t0" demoFinding reviewOne demoTriage
      demoAutofix
  exact ⟨p1 "id" (by simp), p2 "pr_number" (by simp),
         p3 "confidence" (by simp), p4 "issue_url" (by simp)⟩

/-- Witness for C6 at concrete records and the out-of-vocabulary string
`"urgent"`. -/
theorem from_dict_invalid_enum_witness :
    PRReviewFinding.from_dict (Json.setKey demoFinding.to_dict "severity"
      (.str "urgent")) =
      .error (.invalidEnumValue "ReviewSeverity" (.str "urgent")) ∧
    PRReviewFinding.from_dict (Json.setKey demoFinding.to_dict "category"
      (.str "urgent")) =
      .error (.invalidEnumValue "ReviewCategory" (.str "urgent")) ∧
    TriageResult.from_dict "t0" (Json.setKey demoTriage.to_dict "category"
      (.str "urgent")) =
      .error (.invalidEnumValue "TriageCategory" (.str "urgent")) ∧
    AutoFixState.from_dict "t0" (Json.setKey demoAutofix.to_dict "status"
      (.str "urgent")) =
      .error (.invalidEnumValue "AutoFixStatus" (.str "urgent")) := by
  obtain ⟨p1, p2, p3, p4⟩ :=
    from_dict_invalid_enum "t0" "urgent" demoFinding demoTriage demoAutofix
  exact ⟨p1 rfl, p2 rfl, p3 rfl, p4 rfl⟩

/-- Witness for C7 at a concrete settings file: present keys are taken from
the file, absent keys fall back to defaults, the file's `token` key is
ignored, and a missing file yields the all-default config. -/
theorem github_load_settings_spec_witness :
    GitHubRunnerConfig.load_settings (some (.ok (.obj demoSettings)))
        "tk" "o/r" none =
      .ok { token := "tk", repo := "o/r", triage_enabled := true,
            model := "m-x" } ∧
    GitHubRunnerConfig.load_settings none "tk" "o/r" none =
      .ok { token := "tk", repo := "o/r" } :=
  github_load_settings_spec "tk" "o/r" none demoSettings false ["auto-fix"]
    true true 0.80 0.75 0.70 false false false true "m-x" "medium"
    (Or.inr ⟨rfl, rfl⟩) (Or.inr ⟨rfl, rfl⟩) (Or.inr ⟨rfl, rfl⟩)
    (Or.inl rfl) (Or.inr ⟨rfl, rfl⟩) (Or.inr ⟨rfl, rfl⟩)
    (Or.inr ⟨rfl, rfl⟩) (Or.inr ⟨rfl, rfl⟩) (Or.inr ⟨rfl, rfl⟩)
    (Or.inr ⟨rfl, rfl⟩) (Or.inr ⟨rfl, rfl⟩) (Or.inl rfl)
    (Or.inr ⟨rfl, rfl⟩)

/-- Witness for C8 at a concrete state and a timestamp not earlier than the
stored one. -/
theorem update_status_spec_witness :
    (demoAutofix.update_status .building "2024-01-01T10:00:00").status =
      .building ∧
    (demoAutofix.update_status .building "2024-01-01T10:00:00").updated_at =
      "2024-01-01T10:00:00" ∧
    demoAutofix.updated_at ≤
      (demoAutofix.update_status .building "2024-01-01T10:00:00").updated_at ∧
    (demoAutofix.update_status .building
      "2024-01-01T10:00:00").created_at = demoAutofix.created_at := by
  obtain ⟨p1, p2, p3, rest⟩ :=
    update_status_spec demoAutofix .building "2024-01-01T10:00:00"
      (le_refl _)
  exact ⟨p1, p2, p3, rest.2.2.2.2.2.2.2.2.2⟩

/-- Witness for C9's amended claim at a concrete mapping with
`line` 3 ≤ `end_line` 7. -/
theorem finding_end_line_invariant_amended_witness :
    findingInv
      { id := "f2", severity := .low, category := .docs, title := "t",
        description := "d", file := "m.py", line := 3,
        end_line := some 7 } := by
  refine finding_end_line_invariant_amended goodFindingObj _ rfl ?_
  intro n e hn he
  simp [goodFindingObj, Json.find?] at hn he
  omega

/-- Witness for C10 at a concrete pre-existing index: the `triaged` list and
an unknown `extra` key read the same after the update. -/
theorem autofix_index_preserves_other_keys_witness :
    Json.find? (AutoFixState.updateIndexFile (some (.obj demoIndexObj))
        demoAutofix "t1") "triaged" = Json.find? demoIndexObj "triaged" ∧
    Json.find? (AutoFixState.updateIndexFile (some (.obj demoIndexObj))
        demoAutofix "t1") "extra" = Json.find? demoIndexObj "extra" :=
  ⟨autofix_index_preserves_other_keys demoIndexObj demoAutofix "t1" "triaged"
      (by intro q hq; simp [demoIndexObj, Json.find?] at hq)
      (by decide) (by decide),
    autofix_index_preserves_other_keys demoIndexObj demoAutofix "t1" "extra"
      (by intro q hq; simp [demoIndexObj, Json.find?] at hq)
      (by decide) (by decide)⟩
